import Mathlib

/-!
Shallow embedding of the BI query assistant's Business Metrics Engine
(`src/tools/business_metrics_engine.py`).  Transactions are rows of the
sales CSV; pandas float results that can be infinite or NaN are modelled
by `FloatVal`; code paths that raise a Python exception are modelled by
`Except String`, and the engine's outer `try/except` is the `calculate`
wrapper that converts an escaped exception into a structured error value.
-/

namespace BizMetrics

/-- Model of an IEEE floating-point result: a finite rational, one of the
two infinities, or NaN.  Sums of finite data are always finite; the
infinities and NaN arise only from division by zero. -/
inductive FloatVal where
  | fin (q : ℚ)
  | posInf
  | negInf
  | nan
deriving DecidableEq

/-- IEEE division of two finite values, as numpy performs it on float64
scalars: a nonzero denominator gives the exact quotient, a zero
denominator gives a signed infinity (or NaN when the numerator is also
zero).  No exception is raised. -/
def fdiv (a b : ℚ) : FloatVal :=
  if b ≠ 0 then .fin (a / b)
  else if 0 < a then .posInf
  else if a < 0 then .negInf
  else .nan

/-- Multiplication of a float value by the scalar 100 (finite, positive). -/
def FloatVal.mul100 : FloatVal → FloatVal
  | .fin q => .fin (q * 100)
  | .posInf => .posInf
  | .negInf => .negInf
  | .nan => .nan

/-- The Python comparison `growth > 0` on a float: NaN compares false,
positive infinity compares true. -/
def FloatVal.gtZero : FloatVal → Bool
  | .fin q => decide (0 < q)
  | .posInf => true
  | .negInf => false
  | .nan => false

/-- One raw row of the sales CSV, with the column set produced by
`generate_data.py`: identifiers, the textual date, the categorical
dimensions, the numeric amounts, and the precomputed calendar columns. -/
structure RawRow where
  transaction_id : String
  date : String
  product : String
  region : String
  channel : String
  quantity : Int
  unit_price : ℚ
  customer_id : String
  revenue : ℚ
  year : Int
  month : Int
  quarter : Int
  month_name : String
deriving DecidableEq

/-- A row after `pd.to_datetime` has parsed the `date` column: the raw
row plus the `(year, month)` period that `df.date.dt.to_period` later
extracts from the parsed date. -/
structure Row extends RawRow where
  ym : Int × Int
deriving DecidableEq

/-- Numeric value of a digit string, most significant digit first. -/
def digitsVal (cs : List Char) : Nat :=
  cs.foldl (fun n c => n * 10 + (c.toNat - 48)) 0

/-- Split a character list on the dash character. -/
def splitDash (acc : List Char) : List Char → List (List Char)
  | [] => [acc.reverse]
  | c :: cs => if c = '-' then acc.reverse :: splitDash [] cs else splitDash (c :: acc) cs

/-- Modelled from the spec: the repository delegates date parsing to
`pd.to_datetime`, whose source is not in the repository.  The spec
requires every transaction date to be parseable to a calendar date and
the data generator writes ISO `YYYY-MM-DD` dates, so the model accepts
exactly ISO-shaped digit strings with a month in 1..12 and a day in
1..31, and fails (a raised exception) on anything else. -/
def parseDate (s : String) : Except String (Int × Int) :=
  match splitDash [] s.data with
  | [y, m, d] =>
    if !y.isEmpty && y.all Char.isDigit && !m.isEmpty && m.all Char.isDigit
        && !d.isEmpty && d.all Char.isDigit then
      let mn := digitsVal m
      let dn := digitsVal d
      if 1 ≤ mn && mn ≤ 12 && 1 ≤ dn && dn ≤ 31 then
        Except.ok ((digitsVal y : Int), (mn : Int))
      else Except.error ("unparseable date: " ++ s)
    else Except.error ("unparseable date: " ++ s)
  | _ => Except.error ("unparseable date: " ++ s)

/-- The `df.date = pd.to_datetime(df.date)` step: parse every row's date,
propagating the first parse failure as a raised exception. -/
def parseRows : List RawRow → Except String (List Row)
  | [] => Except.ok []
  | r :: rs =>
    match parseDate r.date, parseRows rs with
    | Except.ok p, Except.ok rest => Except.ok (⟨r, p⟩ :: rest)
    | Except.error e, _ => Except.error e
    | _, Except.error e => Except.error e

/-- The string-valued view of a column, as pandas group keys: categorical
columns give their value, numeric columns their decimal rendering.  Used
only under a membership guard in `strCols`. -/
def colStr (col : String) (r : Row) : String :=
  if col = "transaction_id" then r.transaction_id
  else if col = "date" then r.date
  else if col = "product" then r.product
  else if col = "region" then r.region
  else if col = "channel" then r.channel
  else if col = "customer_id" then r.customer_id
  else if col = "month_name" then r.month_name
  else if col = "quantity" then toString r.quantity
  else if col = "year" then toString r.year
  else if col = "month" then toString r.month
  else if col = "quarter" then toString r.quarter
  else ""

/-- The numeric view of a column.  Used only under a membership guard in
`numCols`. -/
def colNum (col : String) (r : Row) : ℚ :=
  if col = "revenue" then r.revenue
  else if col = "unit_price" then r.unit_price
  else if col = "quantity" then (r.quantity : ℚ)
  else if col = "year" then (r.year : ℚ)
  else if col = "month" then (r.month : ℚ)
  else if col = "quarter" then (r.quarter : ℚ)
  else 0

/-- Columns that exist in the frame and can serve as group keys; a
column name outside this list makes pandas raise a KeyError. -/
def strCols : List String :=
  ["transaction_id", "date", "product", "region", "channel", "customer_id",
   "month_name", "quantity", "year", "month", "quarter"]

/-- Columns that exist in the frame with numeric content; a column name
outside this list makes a numeric aggregation raise. -/
def numCols : List String :=
  ["revenue", "unit_price", "quantity", "year", "month", "quarter"]

/-- Lexicographic comparison of character lists by code point, the order
pandas uses when sorting string group keys. -/
def charListLe : List Char → List Char → Bool
  | [], _ => true
  | _ :: _, [] => false
  | a :: as, b :: bs =>
    if a.toNat < b.toNat then true
    else if b.toNat < a.toNat then false
    else charListLe as bs

/-- Lexicographic order on strings, via `charListLe`. -/
def strLe (a b : String) : Prop := charListLe a.data b.data = true

instance : DecidableRel strLe := fun _ _ => inferInstanceAs (Decidable (_ = true))

/-- Ascending sort of group keys, as `groupby(..., sort=True)` yields. -/
def sortStrAsc (l : List String) : List String := List.insertionSort strLe l

/-- Descending order on (key, summed value) pairs by value, the order of
`sort_values(ascending=False)`. -/
def valDescRel (a b : String × ℚ) : Prop := b.2 ≤ a.2

instance : DecidableRel valDescRel := fun a b => inferInstanceAs (Decidable (b.2 ≤ a.2))

instance : IsTotal (String × ℚ) valDescRel := ⟨fun a b => le_total b.2 a.2⟩

instance : IsTrans (String × ℚ) valDescRel := ⟨fun _ _ _ h1 h2 => le_trans h2 h1⟩

/-- Deterministic descending-by-value sort of (key, sum) pairs. -/
def sortValDesc (l : List (String × ℚ)) : List (String × ℚ) :=
  List.insertionSort valDescRel l

/-- Chronological order on (year, month) period keys. -/
def perLe (a b : Int × Int) : Prop := a.1 < b.1 ∨ (a.1 = b.1 ∧ a.2 ≤ b.2)

instance : DecidableRel perLe := fun _ _ => inferInstanceAs (Decidable (_ ∨ _))

instance : IsTotal (Int × Int) perLe := ⟨by intro a b; unfold perLe; omega⟩

instance : IsTrans (Int × Int) perLe := ⟨by intro a b c; unfold perLe; omega⟩

/-- Chronological ascending sort of period keys, as a pandas PeriodIndex
sorts. -/
def sortPeriodAsc (l : List (Int × Int)) : List (Int × Int) :=
  List.insertionSort perLe l

/-- The canonical month order used both by the time filter's month list
and by the time-series reindexing step. -/
def month_order : List String :=
  ["January", "February", "March", "April", "May", "June",
   "July", "August", "September", "October", "November", "December"]

/-- The four recognized quarter filter strings. -/
def quarterStrings : List String := ["Q1", "Q2", "Q3", "Q4"]

/-- The digit extracted by `int(time_period[1])` for each of the four
quarter strings. -/
def quarterNum (s : String) : Int :=
  if s = "Q1" then 1 else if s = "Q2" then 2 else if s = "Q3" then 3
  else if s = "Q4" then 4 else 0

/-- The Python `str.isdigit` test, restricted to ASCII digits as the
generated data contains. -/
def isAllDigits (s : String) : Bool := !s.data.isEmpty && s.data.all Char.isDigit

/-- The Python `int(...)` parse of an all-digit string. -/
def strToInt (s : String) : Int := (digitsVal s.data : Int)

/-- The engine's `_filter_by_time`: quarter strings filter on the
`quarter` column, exact month names on `month_name`, all-digit strings on
`year`, and anything else returns the input unchanged. -/
def filter_by_time (df : List Row) (time_period : String) : List Row :=
  if time_period ∈ quarterStrings then
    df.filter (fun r => decide (r.quarter = quarterNum time_period))
  else if time_period ∈ month_order then
    df.filter (fun r => decide (r.month_name = time_period))
  else if isAllDigits time_period then
    df.filter (fun r => decide (r.year = strToInt time_period))
  else df

/-- One entry of the metric catalogue: aggregation formula, target
column, optional default grouping column, and description. -/
structure MetricDef where
  formula : String
  column : String
  group_by : Option String := none
  mdescr : String
deriving DecidableEq

/-- The engine's `METRIC_DEFINITIONS` registry, in declaration order. -/
def METRIC_DEFINITIONS : List (String × MetricDef) :=
  [("total_revenue", { formula := "sum", column := "revenue", mdescr := "Sum of all revenue" }),
   ("average_order_value", { formula := "mean", column := "revenue", mdescr := "Average revenue per transaction" }),
   ("total_transactions", { formula := "count", column := "transaction_id", mdescr := "Total number of transactions" }),
   ("customer_count", { formula := "unique_count", column := "customer_id", mdescr := "Number of unique customers" }),
   ("top_products", { formula := "group_sum_ranked", column := "revenue", group_by := some "product", mdescr := "Products ranked by revenue" }),
   ("top_regions", { formula := "group_sum_ranked", column := "revenue", group_by := some "region", mdescr := "Regions ranked by revenue" }),
   ("revenue_by_channel", { formula := "group_sum", column := "revenue", group_by := some "channel", mdescr := "Revenue by sales channel" }),
   ("monthly_revenue", { formula := "time_series", column := "revenue", group_by := some "month_name", mdescr := "Revenue by month" }),
   ("growth_rate", { formula := "percentage_change", column := "revenue", mdescr := "Month-over-month growth rate" })]

/-- The metric names, in catalogue order; the unknown-metric message
enumerates exactly this list. -/
def metricNames : List String := METRIC_DEFINITIONS.map Prod.fst

/-- Dictionary lookup `METRIC_DEFINITIONS[metric_name]`. -/
def lookupMetric (n : String) : Option MetricDef :=
  (METRIC_DEFINITIONS.find? (fun p => decide (p.1 = n))).map Prod.snd

/-- Structured view of every outcome `calculate` can produce: each
constructor corresponds to one of the formatted strings the Python
method returns (success payloads keep their computed values, error
strings keep their distinguishing data). -/
inductive CalcResult where
  | unknownMetric (metric_name : String) (available : List String)
  | fileNotFound
  | noDataForPeriod (period : String)
  | sumResult (metric_name : String) (value : ℚ)
  | meanResult (metric_name : String) (value : FloatVal)
  | countResult (metric_name : String) (value : Nat)
  | uniqueCountResult (metric_name : String) (column : String) (value : Nat)
  | rankedResult (metric_name : String) (limit : Int) (items : List (String × ℚ))
  | groupResult (metric_name : String) (items : List (String × ℚ))
  | seriesResult (metric_name : String) (items : List (String × ℚ))
  | insufficientPeriods
  | growthResult (metric_name : String) (latest previous : ℚ)
      (growth : FloatVal) (positive : Bool)
  | missingGroupBy
  | unknownFormula (formula : String)
  | calcError (msg : String)
deriving DecidableEq

/-- The Python truthiness fallback `group_by or metric_def.get('group_by')`:
`None` and the empty string fall through to the metric's default. -/
def pyOr (a b : Option String) : Option String :=
  match a with
  | some s => if s = "" then b else some s
  | none => b

/-- The pandas `head` on a list: a nonnegative argument keeps that many
leading entries, a negative argument drops that many trailing entries. -/
def headPy {α : Type} (n : Int) (l : List α) : List α :=
  if 0 ≤ n then l.take n.toNat else l.take (l.length - (-n).toNat)

/-- The `groupby(group_col)[col].sum()` aggregation: distinct keys in
ascending order, each with the sum of the numeric column over its rows. -/
def groupSumAgg (df : List Row) (gcol col : String) : List (String × ℚ) :=
  (sortStrAsc ((df.map (colStr gcol)).dedup)).map
    (fun k => (k, ((df.filter (fun r => decide (colStr gcol r = k))).map (colNum col)).sum))

/-- `groupby` with the KeyError pandas raises on a column that is not in
the frame (or a non-numeric aggregation target). -/
def groupSumPairs (df : List Row) (gcol col : String) :
    Except String (List (String × ℚ)) :=
  if gcol ∈ strCols ∧ col ∈ numCols then Except.ok (groupSumAgg df gcol col)
  else Except.error ("KeyError: " ++ gcol ++ "/" ++ col)

/-- The `sum` formula branch: `df[column].sum()`. -/
def sumCol (df : List Row) (col : String) : Except String ℚ :=
  if col ∈ numCols then Except.ok ((df.map (colNum col)).sum)
  else Except.error ("KeyError: " ++ col)

/-- The `mean` formula branch: `df[column].mean()`, which is the IEEE
quotient of sum by row count and therefore NaN on an empty frame. -/
def meanCol (df : List Row) (col : String) : Except String FloatVal :=
  if col ∈ numCols then Except.ok (fdiv ((df.map (colNum col)).sum) (df.length : ℚ))
  else Except.error ("KeyError: " ++ col)

/-- The `unique_count` formula branch: `df[column].nunique()`. -/
def nuniqueCol (df : List Row) (col : String) : Except String Nat :=
  if col ∈ strCols then Except.ok ((df.map (colStr col)).dedup.length)
  else Except.error ("KeyError: " ++ col)

/-- The `group_sum_ranked` branch body: group, sum, sort descending by
value, truncate with `head(limit)`. -/
def group_sum_ranked_calc (df : List Row) (gcol col mn : String) (limit : Int) :
    Except String CalcResult :=
  (groupSumPairs df gcol col).map
    (fun pairs => .rankedResult mn limit (headPy limit (sortValDesc pairs)))

/-- The `group_sum` branch body: group, sum, sort descending by value,
return every group. -/
def group_sum_calc (df : List Row) (gcol col mn : String) :
    Except String CalcResult :=
  (groupSumPairs df gcol col).map
    (fun pairs => .groupResult mn (sortValDesc pairs))

/-- The `time_series` branch body: group by `month_name`, sum, then
reindex to the canonical months that occur in the grouped index. -/
def time_series_calc (df : List Row) (col mn : String) :
    Except String CalcResult :=
  (groupSumPairs df "month_name" col).map
    (fun pairs => .seriesResult mn
      (month_order.filterMap
        (fun m => (pairs.find? (fun p => decide (p.1 = m))).map (fun p => (m, p.2)))))

/-- The distinct `(year, month)` period keys of a frame, chronologically
sorted — the index of `df.groupby(df.date.dt.to_period('M'))`. -/
def periodsOf (df : List Row) : List (Int × Int) :=
  sortPeriodAsc (df.map Row.ym).dedup

/-- Sum of a numeric column over the rows of one calendar period. -/
def periodSum (df : List Row) (col : String) (p : Int × Int) : ℚ :=
  ((df.filter (fun r => decide (r.ym = p))).map (colNum col)).sum

/-- The per-period sums `df.groupby(df.date.dt.to_period('M'))[col].sum()`,
chronologically sorted (the groupby sorts its keys and the subsequent
`sort_index()` is a no-op on the already sorted index). -/
def monthlySums (df : List Row) (col : String) : List ((Int × Int) × ℚ) :=
  (periodsOf df).map (fun p => (p, periodSum df col p))

/-- The `percentage_change` branch body: per-period sums, at least two
periods required, growth computed by IEEE division from the last two
sums, trend flag from the float comparison `growth > 0`. -/
def percentage_change_calc (df : List Row) (col mn : String) :
    Except String CalcResult :=
  if col ∈ numCols then
    let monthly := monthlySums df col
    if monthly.length < 2 then Except.ok .insufficientPeriods
    else
      let latest := (monthly.getD (monthly.length - 1) ((0, 0), 0)).2
      let previous := (monthly.getD (monthly.length - 2) ((0, 0), 0)).2
      let growth := (fdiv (latest - previous) previous).mul100
      Except.ok (.growthResult mn latest previous growth growth.gtZero)
  else Except.error ("KeyError: " ++ col)

/-- The formula dispatch of `calculate`, after the metric has been
resolved and the frame filtered. -/
def dispatch (metric_name : String) (md : MetricDef) (df : List Row)
    (group_by : Option String) (limit : Int) : Except String CalcResult :=
  let formula := md.formula
  let column := md.column
  if formula = "sum" then (sumCol df column).map (fun s => .sumResult metric_name s)
  else if formula = "mean" then (meanCol df column).map (fun m => .meanResult metric_name m)
  else if formula = "count" then Except.ok (.countResult metric_name df.length)
  else if formula = "unique_count" then
    (nuniqueCol df column).map (fun n => .uniqueCountResult metric_name column n)
  else if formula = "group_sum_ranked" then
    match pyOr group_by md.group_by with
    | none => Except.ok .missingGroupBy
    | some g =>
      if g = "" then Except.ok .missingGroupBy
      else group_sum_ranked_calc df g column metric_name limit
  else if formula = "group_sum" then
    match pyOr group_by md.group_by with
    | none => Except.error "TypeError: cannot group by None"
    | some g => group_sum_calc df g column metric_name
  else if formula = "time_series" then time_series_calc df column metric_name
  else if formula = "percentage_change" then percentage_change_calc df column metric_name
  else Except.ok (.unknownFormula formula)

/-- The body of `calculate` inside its `try` block: catalogue check, data
source check, date parsing, time filtering with the empty-after-filter
check, then formula dispatch.  A raised Python exception is an
`Except.error`. -/
def calculateExc (metric_name : String) (source : Option (List RawRow))
    (time_period : String) (group_by : Option String) (limit : Int) :
    Except String CalcResult :=
  match lookupMetric metric_name with
  | none => Except.ok (.unknownMetric metric_name metricNames)
  | some md =>
    match source with
    | none => Except.ok .fileNotFound
    | some raw =>
      match parseRows raw with
      | Except.error e => Except.error e
      | Except.ok df0 =>
        let df := if time_period = "all" then df0 else filter_by_time df0 time_period
        if time_period ≠ "all" ∧ df = [] then Except.ok (.noDataForPeriod time_period)
        else dispatch metric_name md df group_by limit

/-- The public `calculate`: the `try/except Exception` wrapper that turns
any escaped exception into the structured "Error calculating metric"
result, so the method always returns a value. -/
def calculate (metric_name : String) (source : Option (List RawRow))
    (time_period : String) (group_by : Option String) (limit : Int) : CalcResult :=
  match calculateExc metric_name source time_period group_by limit with
  | Except.ok r => r
  | Except.error e => .calcError e

/-- The chronologically last (`iloc[-1]`) period key of a frame. -/
def latestPeriod (df : List Row) : Int × Int :=
  (periodsOf df).getD ((periodsOf df).length - 1) (0, 0)

/-- The second-to-last (`iloc[-2]`) period key of a frame. -/
def prevPeriod (df : List Row) : Int × Int :=
  (periodsOf df).getD ((periodsOf df).length - 2) (0, 0)

/-- The growth value computed from the last two period sums. -/
def growthOf (df : List Row) (col : String) : FloatVal :=
  (fdiv (periodSum df col (latestPeriod df) - periodSum df col (prevPeriod df))
        (periodSum df col (prevPeriod df))).mul100

/-- Sum of a numeric column over the rows of one named month. -/
def monthSum (df : List Row) (col : String) (m : String) : ℚ :=
  ((df.filter (fun r => decide (r.month_name = m))).map (colNum col)).sum

section Lemmas

/-- A metric name outside the catalogue finds no definition. -/
lemma lookupMetric_eq_none {mn : String} (hmn : mn ∉ metricNames) :
    lookupMetric mn = none := by
  have hf : METRIC_DEFINITIONS.find? (fun p => decide (p.1 = mn)) = none := by
    rw [List.find?_eq_none]
    intro x hx
    simp only [decide_eq_true_eq]
    intro h
    exact hmn (h ▸ List.mem_map_of_mem Prod.fst hx)
  simp [lookupMetric, hf]

/-- A metric name inside the catalogue finds some definition. -/
lemma lookupMetric_isSome {mn : String} (hmn : mn ∈ metricNames) :
    ∃ md, lookupMetric mn = some md := by
  obtain ⟨p, hp, hfst⟩ := List.mem_map.mp hmn
  have : (METRIC_DEFINITIONS.find? (fun p => decide (p.1 = mn))).isSome := by
    rw [List.find?_isSome]
    exact ⟨p, hp, by simp [hfst]⟩
  obtain ⟨q, hq⟩ := Option.isSome_iff_exists.mp this
  exact ⟨q.2, by simp [lookupMetric, hq]⟩

/-- With a known metric, a present source, parsed rows, a non-"all"
period and an empty filtered frame, `calculate` returns the explicit
no-data error. -/
lemma calc_noData_of_empty {mn : String} {md : MetricDef}
    (hm : lookupMetric mn = some md) (raw : List RawRow) (df0 : List Row)
    (hp : parseRows raw = Except.ok df0) {tp : String} (ht : tp ≠ "all")
    (hf : filter_by_time df0 tp = []) (gb : Option String) (lim : Int) :
    calculate mn (some raw) tp gb lim = .noDataForPeriod tp := by
  simp [calculate, calculateExc, hm, hp, ht, hf]

/-- None of the twelve month names is a quarter string. -/
lemma month_not_quarter : ∀ m ∈ month_order, m ∉ quarterStrings := by decide

/-- No quarter string is all digits. -/
lemma quarter_not_digits : ∀ q ∈ quarterStrings, isAllDigits q = false := by decide

/-- No month name is all digits. -/
lemma month_not_digits : ∀ m ∈ month_order, isAllDigits m = false := by decide

end Lemmas

/-- C3: the time filter's precedence: "all" is the identity, a quarter
string keeps exactly the rows with the matching quarter digit, a
case-sensitive English month name keeps exactly the rows with that month
name, an all-digit string keeps exactly the rows with the parsed year,
and any other string returns the input unchanged. -/
theorem C3_time_filter_precedence (df : List Row) (p : String) :
    (p = "all" → filter_by_time df p = df) ∧
    (p ∈ quarterStrings →
      ∀ r : Row, r ∈ filter_by_time df p ↔ r ∈ df ∧ r.quarter = quarterNum p) ∧
    (quarterNum "Q1" = 1 ∧ quarterNum "Q2" = 2 ∧ quarterNum "Q3" = 3 ∧ quarterNum "Q4" = 4) ∧
    (p ∈ month_order →
      ∀ r : Row, r ∈ filter_by_time df p ↔ r ∈ df ∧ r.month_name = p) ∧
    (isAllDigits p = true →
      ∀ r : Row, r ∈ filter_by_time df p ↔ r ∈ df ∧ r.year = strToInt p) ∧
    (p ∉ quarterStrings → p ∉ month_order → isAllDigits p = false →
      filter_by_time df p = df) := by
  refine ⟨?_, ?_, by decide, ?_, ?_, ?_⟩
  · rintro rfl
    simp [filter_by_time, quarterStrings, month_order, isAllDigits]
  · intro hq r
    rw [filter_by_time, if_pos hq, List.mem_filter]
    simp
  · intro hm r
    rw [filter_by_time, if_neg (month_not_quarter p hm), if_pos hm, List.mem_filter]
    simp
  · intro hd r
    have hq : p ∉ quarterStrings := fun h => by
      rw [quarter_not_digits p h] at hd; exact Bool.false_ne_true hd
    have hm : p ∉ month_order := fun h => by
      rw [month_not_digits p h] at hd; exact Bool.false_ne_true hd
    rw [filter_by_time, if_neg hq, if_neg hm, if_pos hd, List.mem_filter]
    simp
  · intro hq hm hd
    rw [filter_by_time, if_neg hq, if_neg hm, hd]
    simp

/-- Witness for C3: the quarter case at the concrete period "Q1". -/
theorem C3_witness :
    ("Q1" ∈ quarterStrings) ∧
      (∀ r : Row, r ∈ filter_by_time [] "Q1" ↔ r ∈ ([] : List Row) ∧ r.quarter = quarterNum "Q1") :=
  ⟨by decide, (C3_time_filter_precedence [] "Q1").2.1 (by decide)⟩

/-- C4: for every metric name outside the catalogue, `calculate` returns
the unknown-metric failure enumerating all nine valid names, for every
source, period, grouping and limit — never a default metric result. -/
theorem C4_unknown_metric (mn : String) (hmn : mn ∉ metricNames)
    (source : Option (List RawRow)) (tp : String) (gb : Option String) (lim : Int) :
    calculate mn source tp gb lim = .unknownMetric mn metricNames ∧
    metricNames = ["total_revenue", "average_order_value", "total_transactions",
      "customer_count", "top_products", "top_regions", "revenue_by_channel",
      "monthly_revenue", "growth_rate"] :=
  ⟨by simp [calculate, calculateExc, lookupMetric_eq_none hmn], by rfl⟩

/-- Witness for C4: the unknown name "bogus". -/
theorem C4_witness :
    "bogus" ∉ metricNames ∧
      calculate "bogus" none "all" none 5 = .unknownMetric "bogus" metricNames :=
  ⟨by decide, (C4_unknown_metric "bogus" (by decide) none "all" none 5).1⟩

/-- C5: with a known metric, readable parsed data and a non-"all" period
whose filter result is empty, `calculate` reports the explicit no-data
failure; no aggregation strategy runs on the empty frame. -/
theorem C5_no_data_for_period (mn : String) (md : MetricDef)
    (hm : lookupMetric mn = some md) (raw : List RawRow) (df0 : List Row)
    (hp : parseRows raw = Except.ok df0) (tp : String) (ht : tp ≠ "all")
    (hf : filter_by_time df0 tp = []) (gb : Option String) (lim : Int) :
    calculate mn (some raw) tp gb lim = .noDataForPeriod tp :=
  calc_noData_of_empty hm raw df0 hp ht hf gb lim

/-- Witness for C5: total_revenue over an empty source with period "Q1". -/
theorem C5_witness : calculate "total_revenue" (some []) "Q1" none 5 = .noDataForPeriod "Q1" :=
  C5_no_data_for_period "total_revenue"
    { formula := "sum", column := "revenue", mdescr := "Sum of all revenue" }
    (by simp [lookupMetric, METRIC_DEFINITIONS]) [] []
    (by simp [parseRows]) "Q1" (by decide) (by simp [filter_by_time]) none 5

/-- C9: totality and recovery. `calculate` is a total function into
structured results (it is defined for every input), and each failure of
the error taxonomy surfaces as its structured value: unknown metric,
missing data source, malformed rows (a parse exception recovered by the
boundary handler), empty filtered set, and insufficient periods for the
growth metric. -/
theorem C9_total_and_structured (mn : String) (source : Option (List RawRow))
    (tp : String) (gb : Option String) (lim : Int) :
    (mn ∉ metricNames → calculate mn source tp gb lim = .unknownMetric mn metricNames) ∧
    (mn ∈ metricNames → source = none → calculate mn source tp gb lim = .fileNotFound) ∧
    (∀ raw e, source = some raw → parseRows raw = Except.error e → mn ∈ metricNames →
      calculate mn source tp gb lim = .calcError e) ∧
    (∀ raw df0, source = some raw → parseRows raw = Except.ok df0 → mn ∈ metricNames →
      tp ≠ "all" → filter_by_time df0 tp = [] →
      calculate mn source tp gb lim = .noDataForPeriod tp) ∧
    (∀ raw df0, source = some raw → parseRows raw = Except.ok df0 → mn = "growth_rate" →
      tp = "all" → (monthlySums df0 "revenue").length < 2 →
      calculate mn source tp gb lim = .insufficientPeriods) := by
  refine ⟨?_, ?_, ?_, ?_, ?_⟩
  · intro hmn
    simp [calculate, calculateExc, lookupMetric_eq_none hmn]
  · intro hmn hsrc
    obtain ⟨md, hmd⟩ := lookupMetric_isSome hmn
    subst hsrc
    simp [calculate, calculateExc, hmd]
  · rintro raw e rfl hp hmn
    obtain ⟨md, hmd⟩ := lookupMetric_isSome hmn
    simp [calculate, calculateExc, hmd, hp]
  · rintro raw df0 rfl hp hmn ht hf
    obtain ⟨md, hmd⟩ := lookupMetric_isSome hmn
    exact calc_noData_of_empty hmd raw df0 hp ht hf gb lim
  · rintro raw df0 rfl hp rfl rfl hlen
    simp [calculate, calculateExc, lookupMetric, METRIC_DEFINITIONS, hp, dispatch,
          percentage_change_calc, numCols, hlen]

/-- Witness for C9: the missing-data-source case for total_revenue. -/
theorem C9_witness : calculate "total_revenue" none "all" none 5 = .fileNotFound :=
  (C9_total_and_structured "total_revenue" none "all" none 5).2.1 (by decide) rfl

section GrowthLemmas

/-- Indexing into the per-period sums selects a period key and its sum. -/
lemma monthlySums_getD (df : List Row) (col : String) {i : ℕ}
    (hi : i < (periodsOf df).length) :
    (monthlySums df col).getD i ((0, 0), 0) =
      ((periodsOf df).getD i (0, 0), periodSum df col ((periodsOf df).getD i (0, 0))) := by
  have hi2 : i < (monthlySums df col).length := by simpa [monthlySums] using hi
  rw [monthlySums, List.getD_eq_getElem?_getD, List.getElem?_map,
      List.getElem?_eq_getElem hi, List.getD_eq_getElem _ _ hi]
  rfl

/-- The period keys are chronologically sorted. -/
lemma periodsOf_sorted (df : List Row) : List.Sorted perLe (periodsOf df) :=
  List.sorted_insertionSort perLe _

/-- The period keys are exactly the distinct year-month keys of the rows. -/
lemma periodsOf_mem (df : List Row) (p : Int × Int) :
    p ∈ periodsOf df ↔ ∃ r ∈ df, r.ym = p := by
  rw [periodsOf, sortPeriodAsc, (List.perm_insertionSort perLe _).mem_iff,
      List.mem_dedup, List.mem_map]

/-- `perLe` is reflexive. -/
lemma perLe_refl (p : Int × Int) : perLe p p := Or.inr ⟨rfl, le_refl _⟩

/-- In a chronologically sorted list, the last entry bounds every member. -/
lemma sorted_getD_last_max {l : List (Int × Int)} (hs : List.Sorted perLe l)
    {p : Int × Int} (hp : p ∈ l) : perLe p (l.getD (l.length - 1) (0, 0)) := by
  obtain ⟨i, hi⟩ := List.mem_iff_get.mp hp
  have hne : l ≠ [] := List.ne_nil_of_mem hp
  have hpos : 0 < l.length := List.length_pos.mpr hne
  have hlast : l.length - 1 < l.length := by omega
  rw [List.getD_eq_getElem l _ hlast]
  rcases lt_or_ge i.1 (l.length - 1) with h | h
  · have := hs.rel_get_of_lt (a := i) (b := ⟨l.length - 1, hlast⟩) h
    rwa [hi] at this
  · have hieq : i.1 = l.length - 1 := by have := i.2; omega
    have : l[l.length - 1] = p := by
      rw [← hi]; simp [List.get_eq_getElem, hieq]
    rw [this]; exact perLe_refl p

/-- The computed form of the `percentage_change` branch when at least two
periods exist: latest and previous period sums, IEEE growth, trend flag. -/
lemma pcc_eq (df : List Row) (col mn : String) (hcol : col ∈ numCols)
    (h2 : 2 ≤ (periodsOf df).length) :
    percentage_change_calc df col mn = Except.ok (.growthResult mn
      (periodSum df col (latestPeriod df)) (periodSum df col (prevPeriod df))
      (growthOf df col) (growthOf df col).gtZero) := by
  have hlen : (monthlySums df col).length = (periodsOf df).length := by
    simp [monthlySums]
  have h1 : (periodsOf df).length - 1 < (periodsOf df).length := by omega
  have hp2 : (periodsOf df).length - 2 < (periodsOf df).length := by omega
  have hno : ¬ (monthlySums df col).length < 2 := by omega
  simp only [percentage_change_calc, if_pos hcol, if_neg hno, hlen,
             monthlySums_getD df col h1, monthlySums_getD df col hp2]
  rw [if_neg (by omega : ¬ (periodsOf df).length < 2)]
  rfl

end GrowthLemmas

/-- C6: the percentage_change strategy groups the rows by the composite
year-month key (distinct periods are exactly the distinct keys, so equal
month names of different years stay distinct), sums the target column per
period, sorts periods chronologically with the last entry bounding every
period, reports the insufficient-periods error below two periods, and
otherwise computes growth as (latest − previous) / previous × 100 from
the last two period sums, with the trend flag from the float sign test.
The two-decimal rendering of the growth value is string formatting of
this exact rational. -/
theorem C6_percentage_change_strategy (df : List Row) (col mn : String)
    (hcol : col ∈ numCols) :
    List.Sorted perLe (periodsOf df) ∧
    (∀ p, p ∈ periodsOf df ↔ ∃ r ∈ df, r.ym = p) ∧
    (∀ p ∈ periodsOf df, perLe p (latestPeriod df)) ∧
    ((periodsOf df).length < 2 →
      percentage_change_calc df col mn = Except.ok .insufficientPeriods) ∧
    (2 ≤ (periodsOf df).length →
      percentage_change_calc df col mn = Except.ok (.growthResult mn
        (periodSum df col (latestPeriod df)) (periodSum df col (prevPeriod df))
        ((fdiv (periodSum df col (latestPeriod df) - periodSum df col (prevPeriod df))
               (periodSum df col (prevPeriod df))).mul100)
        ((fdiv (periodSum df col (latestPeriod df) - periodSum df col (prevPeriod df))
               (periodSum df col (prevPeriod df))).mul100.gtZero))) := by
  refine ⟨periodsOf_sorted df, periodsOf_mem df, ?_, ?_, ?_⟩
  · intro p hp
    exact sorted_getD_last_max (periodsOf_sorted df) hp
  · intro hlt
    have hno : (monthlySums df col).length < 2 := by simpa [monthlySums] using hlt
    simp [percentage_change_calc, if_pos hcol, hno]
  · intro h2
    exact pcc_eq df col mn hcol h2

/-- A concrete January 2024 transaction with the given revenue. -/
def rawJan (rev : ℚ) : RawRow :=
  { transaction_id := "TXN0001", date := "2024-01-15", product := "Laptop",
    region := "North", channel := "Online", quantity := 1, unit_price := rev,
    customer_id := "CUST1001", revenue := rev, year := 2024, month := 1,
    quarter := 1, month_name := "January" }

/-- A concrete February 2024 transaction with the given revenue. -/
def rawFeb (rev : ℚ) : RawRow :=
  { transaction_id := "TXN0002", date := "2024-02-10", product := "Mouse",
    region := "South", channel := "Retail", quantity := 1, unit_price := rev,
    customer_id := "CUST1002", revenue := rev, year := 2024, month := 2,
    quarter := 1, month_name := "February" }

/-- The January row after date parsing. -/
def rowJan (rev : ℚ) : Row := ⟨rawJan rev, (2024, 1)⟩

/-- The February row after date parsing. -/
def rowFeb (rev : ℚ) : Row := ⟨rawFeb rev, (2024, 2)⟩

/-- Witness for C6: the spec's `[150, 100]` example, evaluated on a
two-row frame whose period sums are 150 then 100: the latest and previous
sums and the exact growth value (100 − 150) / 150 × 100 = −100/3, whose
two-decimal rendering is −33.33. -/
theorem C6_witness :
    2 ≤ (periodsOf [rowJan 150, rowFeb 100]).length ∧
      percentage_change_calc [rowJan 150, rowFeb 100] "revenue" "growth_rate" =
        Except.ok (.growthResult "growth_rate"
          (periodSum [rowJan 150, rowFeb 100] "revenue" (latestPeriod [rowJan 150, rowFeb 100]))
          (periodSum [rowJan 150, rowFeb 100] "revenue" (prevPeriod [rowJan 150, rowFeb 100]))
          ((fdiv (periodSum [rowJan 150, rowFeb 100] "revenue" (latestPeriod [rowJan 150, rowFeb 100]) -
                  periodSum [rowJan 150, rowFeb 100] "revenue" (prevPeriod [rowJan 150, rowFeb 100]))
                 (periodSum [rowJan 150, rowFeb 100] "revenue" (prevPeriod [rowJan 150, rowFeb 100]))).mul100)
          ((fdiv (periodSum [rowJan 150, rowFeb 100] "revenue" (latestPeriod [rowJan 150, rowFeb 100]) -
                  periodSum [rowJan 150, rowFeb 100] "revenue" (prevPeriod [rowJan 150, rowFeb 100]))
                 (periodSum [rowJan 150, rowFeb 100] "revenue" (prevPeriod [rowJan 150, rowFeb 100]))).mul100.gtZero)) := by
  have h2 : 2 ≤ (periodsOf [rowJan 150, rowFeb 100]).length := by
    simp [periodsOf, sortPeriodAsc, List.insertionSort, List.orderedInsert, perLe,
          rowJan, rowFeb, rawJan, rawFeb]
  exact ⟨h2,
    (C6_percentage_change_strategy [rowJan 150, rowFeb 100] "revenue" "growth_rate"
      (by decide)).2.2.2.2 h2⟩

/-- C10: when the previous period sum is nonzero the growth value is the
finite rational (latest − previous) / previous × 100; the positive-trend
flag holds exactly when that value is strictly positive, and growth of
exactly zero (latest equal to previous) is flagged as negative trend. -/
theorem C10_zero_growth_negative_trend (df : List Row) (col mn : String)
    (hcol : col ∈ numCols) (h2 : 2 ≤ (periodsOf df).length)
    (hprev : periodSum df col (prevPeriod df) ≠ 0) :
    percentage_change_calc df col mn = Except.ok (.growthResult mn
      (periodSum df col (latestPeriod df)) (periodSum df col (prevPeriod df))
      (.fin ((periodSum df col (latestPeriod df) - periodSum df col (prevPeriod df)) /
             periodSum df col (prevPeriod df) * 100))
      (decide (0 < (periodSum df col (latestPeriod df) - periodSum df col (prevPeriod df)) /
                   periodSum df col (prevPeriod df) * 100))) ∧
    (periodSum df col (latestPeriod df) = periodSum df col (prevPeriod df) →
      decide (0 < (periodSum df col (latestPeriod df) - periodSum df col (prevPeriod df)) /
                  periodSum df col (prevPeriod df) * 100) = false) ∧
    ((decide (0 < (periodSum df col (latestPeriod df) - periodSum df col (prevPeriod df)) /
                  periodSum df col (prevPeriod df) * 100)) = true ↔
      0 < (periodSum df col (latestPeriod df) - periodSum df col (prevPeriod df)) /
          periodSum df col (prevPeriod df) * 100) := by
  have hg : growthOf df col = .fin
      ((periodSum df col (latestPeriod df) - periodSum df col (prevPeriod df)) /
        periodSum df col (prevPeriod df) * 100) := by
    rw [growthOf, fdiv, if_pos hprev]
    rfl
  refine ⟨?_, ?_, by simp⟩
  · have := pcc_eq df col mn hcol h2
    rw [hg] at this
    simpa [FloatVal.gtZero] using this
  · intro heq
    rw [heq]
    simp

/-- Witness for C10: a frame with equal period sums 100 and 100 gives
growth exactly zero and a negative-trend flag. -/
theorem C10_witness :
    percentage_change_calc [rowJan 100, rowFeb 100] "revenue" "growth_rate" =
      Except.ok (.growthResult "growth_rate"
        (periodSum [rowJan 100, rowFeb 100] "revenue" (latestPeriod [rowJan 100, rowFeb 100]))
        (periodSum [rowJan 100, rowFeb 100] "revenue" (prevPeriod [rowJan 100, rowFeb 100]))
        (.fin ((periodSum [rowJan 100, rowFeb 100] "revenue" (latestPeriod [rowJan 100, rowFeb 100]) -
                periodSum [rowJan 100, rowFeb 100] "revenue" (prevPeriod [rowJan 100, rowFeb 100])) /
               periodSum [rowJan 100, rowFeb 100] "revenue" (prevPeriod [rowJan 100, rowFeb 100]) * 100))
        (decide (0 < (periodSum [rowJan 100, rowFeb 100] "revenue" (latestPeriod [rowJan 100, rowFeb 100]) -
                      periodSum [rowJan 100, rowFeb 100] "revenue" (prevPeriod [rowJan 100, rowFeb 100])) /
                     periodSum [rowJan 100, rowFeb 100] "revenue" (prevPeriod [rowJan 100, rowFeb 100]) * 100))) :=
  (C10_zero_growth_negative_trend [rowJan 100, rowFeb 100] "revenue" "growth_rate"
    (by decide)
    (by simp [periodsOf, sortPeriodAsc, List.insertionSort, List.orderedInsert, perLe,
              rowJan, rowFeb, rawJan, rawFeb])
    (by simp [periodSum, prevPeriod, periodsOf, sortPeriodAsc, List.insertionSort,
              List.orderedInsert, perLe, rowJan, rowFeb, rawJan, rawFeb, colNum])).1

/-- Counterexample for C1: a frame whose January sum is exactly zero and
whose February sum is 100 makes `calculate` return a successful growth
result with value +infinity and a positive-trend flag — not any error
result: the code divides by the zero previous sum with IEEE semantics and
no `DegenerateGrowthDenominator` guard exists. -/
theorem C1_counterexample :
    calculate "growth_rate" (some [rawJan 0, rawFeb 100]) "all" none 5 =
      .growthResult "growth_rate" 100 0 .posInf true := by
  simp [calculate, calculateExc, lookupMetric, METRIC_DEFINITIONS, dispatch,
        percentage_change_calc, monthlySums, periodsOf, periodSum, sortPeriodAsc,
        numCols, fdiv, parseRows, parseDate, splitDash, digitsVal, metricNames,
        rawJan, rawFeb, FloatVal.mul100, FloatVal.gtZero, List.insertionSort,
        List.orderedInsert, perLe, Except.map, colNum]

/-- C1 (amended): when the previous period sum is exactly zero, the
percentage_change strategy does not return an explicit error; it returns
a growth result whose growth value is nonfinite — positive infinity,
negative infinity, or NaN, by IEEE division. -/
theorem C1_zero_denominator_not_error (df : List Row) (col mn : String)
    (hcol : col ∈ numCols) (h2 : 2 ≤ (periodsOf df).length)
    (hprev : periodSum df col (prevPeriod df) = 0) :
    percentage_change_calc df col mn = Except.ok (.growthResult mn
      (periodSum df col (latestPeriod df)) 0 (growthOf df col) (growthOf df col).gtZero) ∧
    (growthOf df col = .posInf ∨ growthOf df col = .negInf ∨ growthOf df col = .nan) := by
  constructor
  · have := pcc_eq df col mn hcol h2
    rwa [hprev] at this
  · rw [growthOf, hprev, fdiv]
    rcases lt_trichotomy (periodSum df col (latestPeriod df) - 0) 0 with h | h | h
    · rw [if_neg (by simp), if_neg (by linarith), if_pos h]
      right; left; rfl
    · rw [if_neg (by simp), if_neg (by simp [h]), if_neg (by simp [h])]
      right; right; rfl
    · rw [if_neg (by simp), if_pos h]
      left; rfl

/-- Witness for C1: the zero-January frame, with all hypotheses
discharged concretely. -/
theorem C1_witness :
    percentage_change_calc [rowJan 0, rowFeb 100] "revenue" "growth_rate" =
      Except.ok (.growthResult "growth_rate"
        (periodSum [rowJan 0, rowFeb 100] "revenue" (latestPeriod [rowJan 0, rowFeb 100]))
        0 (growthOf [rowJan 0, rowFeb 100] "revenue")
        (growthOf [rowJan 0, rowFeb 100] "revenue").gtZero) :=
  (C1_zero_denominator_not_error [rowJan 0, rowFeb 100] "revenue" "growth_rate"
    (by decide)
    (by simp [periodsOf, sortPeriodAsc, List.insertionSort, List.orderedInsert, perLe,
              rowJan, rowFeb, rawJan, rawFeb])
    (by simp [periodSum, prevPeriod, periodsOf, sortPeriodAsc, List.insertionSort,
              List.orderedInsert, perLe, rowJan, rowFeb, rawJan, rawFeb, colNum])).1

/-- Counterexample for C2: a source with zero rows under the default
period "all" makes `calculate` skip the emptiness guard and return a NaN
mean as a success result, not an error. -/
theorem C2_counterexample :
    calculate "average_order_value" (some []) "all" none 5 =
      .meanResult "average_order_value" .nan := by
  simp [calculate, calculateExc, lookupMetric, METRIC_DEFINITIONS, dispatch, meanCol,
        numCols, fdiv, parseRows, metricNames, Except.map]

/-- C2 (amended): for every non-"all" period whose filtered frame is
empty, the mean metric reports the explicit no-data error before the
strategy runs; but under the period "all" with zero rows the emptiness
check is skipped and the mean is returned as NaN. -/
theorem C2_mean_empty_guard (raw : List RawRow) (tp : String) (gb : Option String)
    (lim : Int) :
    (∀ df0, parseRows raw = Except.ok df0 → tp ≠ "all" → filter_by_time df0 tp = [] →
      calculate "average_order_value" (some raw) tp gb lim = .noDataForPeriod tp) ∧
    (parseRows raw = Except.ok [] →
      calculate "average_order_value" (some raw) "all" gb lim =
        .meanResult "average_order_value" .nan) := by
  constructor
  · intro df0 hp ht hf
    exact @calc_noData_of_empty "average_order_value"
      { formula := "mean", column := "revenue", mdescr := "Average revenue per transaction" }
      (by simp [lookupMetric, METRIC_DEFINITIONS]) raw df0 hp tp ht hf gb lim
  · intro hp
    simp [calculate, calculateExc, lookupMetric, METRIC_DEFINITIONS, dispatch, meanCol,
          numCols, fdiv, hp, Except.map]

/-- Witness for C2: the empty source, under the periods "Q1" and "all". -/
theorem C2_witness :
    calculate "average_order_value" (some []) "Q1" none 5 = .noDataForPeriod "Q1" ∧
      calculate "average_order_value" (some []) "all" none 5 =
        .meanResult "average_order_value" .nan :=
  ⟨(C2_mean_empty_guard [] "Q1" none 5).1 [] (by simp [parseRows]) (by decide)
      (by simp [filter_by_time]),
   (C2_mean_empty_guard [] "all" none 5).2 (by simp [parseRows])⟩

/-- C7: the ranked grouped sum returns at most `limit` entries, sorted
descending by summed value (ties resolved by the fixed deterministic
sort), and every returned pair occurs in the full unranked grouped-sum
output for the same grouping dimension and column. -/
theorem C7_ranked_vs_unranked (df : List Row) (gcol col mn : String) (lim : Int)
    (hg : gcol ∈ strCols) (hc : col ∈ numCols) (hlim : 0 < lim) :
    group_sum_ranked_calc df gcol col mn lim = Except.ok (.rankedResult mn lim
      (headPy lim (sortValDesc (groupSumAgg df gcol col)))) ∧
    group_sum_calc df gcol col mn = Except.ok (.groupResult mn
      (sortValDesc (groupSumAgg df gcol col))) ∧
    (headPy lim (sortValDesc (groupSumAgg df gcol col))).length ≤ lim.toNat ∧
    List.Sorted valDescRel (headPy lim (sortValDesc (groupSumAgg df gcol col))) ∧
    ∀ q ∈ headPy lim (sortValDesc (groupSumAgg df gcol col)),
      q ∈ sortValDesc (groupSumAgg df gcol col) := by
  have hguard : gcol ∈ strCols ∧ col ∈ numCols := ⟨hg, hc⟩
  have hhead : headPy lim (sortValDesc (groupSumAgg df gcol col)) =
      (sortValDesc (groupSumAgg df gcol col)).take lim.toNat := by
    rw [headPy, if_pos (le_of_lt hlim)]
  refine ⟨?_, ?_, ?_, ?_, ?_⟩
  · simp [group_sum_ranked_calc, groupSumPairs, hguard, Except.map]
  · simp [group_sum_calc, groupSumPairs, hguard, Except.map]
  · rw [hhead, List.length_take]
    exact min_le_left _ _
  · rw [hhead]
    exact List.Pairwise.sublist (List.take_sublist _ _)
      (List.sorted_insertionSort valDescRel _)
  · rw [hhead]
    exact fun q hq => List.take_subset _ _ hq

/-- Witness for C7: ranking two products with limit 1. -/
theorem C7_witness :
    (0 : Int) < 1 ∧
      ∀ q ∈ headPy 1 (sortValDesc (groupSumAgg [rowJan 150, rowFeb 100] "product" "revenue")),
        q ∈ sortValDesc (groupSumAgg [rowJan 150, rowFeb 100] "product" "revenue") :=
  ⟨by decide,
   (C7_ranked_vs_unranked [rowJan 150, rowFeb 100] "product" "revenue" "top_products" 1
     (by decide) (by decide) (by decide)).2.2.2.2⟩

section SeriesLemmas

/-- The month-name key column reads off the row's month name. -/
lemma colStr_month_name (r : Row) : colStr "month_name" r = r.month_name := by
  simp [colStr]

/-- Searching a string list for an element equal to `m` finds `m` itself
exactly when `m` is a member. -/
lemma find?_self_eq (l : List String) (m : String) :
    l.find? (fun k => decide (k = m)) = if m ∈ l then some m else none := by
  induction l with
  | nil => simp
  | cons a as ih =>
    by_cases h : a = m
    · subst h
      simp [List.find?_cons_of_pos]
    · rw [List.find?_cons_of_neg _ (by simp [h]), ih]
      simp [List.mem_cons, Ne.symm h]

/-- A `filterMap` of a guarded `some` is a filter followed by a map. -/
lemma filterMap_ite {α β : Type} (l : List α) (q : α → Prop) [DecidablePred q]
    (f : α → β) :
    l.filterMap (fun a => if q a then some (f a) else none) =
      (l.filter (fun a => decide (q a))).map f := by
  induction l with
  | nil => simp
  | cons a as ih =>
    by_cases h : q a
    · simp [h, ih]
    · simp [h, ih]

/-- Membership in the sorted distinct month-name keys is presence of the
month in the frame. -/
lemma mem_month_keys (df : List Row) (m : String) :
    m ∈ sortStrAsc ((df.map (colStr "month_name")).dedup) ↔
      ∃ r ∈ df, r.month_name = m := by
  rw [sortStrAsc, (List.perm_insertionSort strLe _).mem_iff, List.mem_dedup,
      List.mem_map]
  simp only [colStr_month_name]

/-- The grouped sum for a month-name key is the sum over that month. -/
lemma groupSum_month_eq (df : List Row) (col m : String) :
    ((df.filter (fun r => decide (colStr "month_name" r = m))).map (colNum col)).sum =
      monthSum df col m := by
  have hfc : df.filter (fun r => decide (colStr "month_name" r = m)) =
      df.filter (fun r => decide (r.month_name = m)) :=
    List.filter_congr (fun r _ => by simp [colStr_month_name])
  rw [monthSum, hfc]

end SeriesLemmas

/-- C8: on a frame whose month names are genuine calendar month names
(the documented data invariant), the time-series strategy outputs exactly
the months present in the data, ordered as a subsequence of the canonical
January-to-December list, never inventing absent months, each month
paired with the sum of the target column over that month's rows. -/
theorem C8_time_series_canonical (df : List Row) (col mn : String)
    (hc : col ∈ numCols) (hmn : ∀ r ∈ df, r.month_name ∈ month_order) :
    time_series_calc df col mn = Except.ok (.seriesResult mn
      ((month_order.filter (fun m => decide (∃ r ∈ df, r.month_name = m))).map
        (fun m => (m, monthSum df col m)))) ∧
    List.Sublist
      (((month_order.filter (fun m => decide (∃ r ∈ df, r.month_name = m))).map
        (fun m => (m, monthSum df col m))).map Prod.fst) month_order ∧
    (∀ m, m ∈ month_order.filter (fun m => decide (∃ r ∈ df, r.month_name = m)) ↔
      ∃ r ∈ df, r.month_name = m) := by
  have hkeys := mem_month_keys df
  refine ⟨?_, ?_, ?_⟩
  · have hguard : "month_name" ∈ strCols ∧ col ∈ numCols := ⟨by decide, hc⟩
    rw [time_series_calc, groupSumPairs, if_pos hguard]
    simp only [Except.map]
    congr 1
    congr 1
    rw [groupSumAgg]
    have hfind : ∀ m : String,
        ((sortStrAsc ((df.map (colStr "month_name")).dedup)).map
          (fun k => (k, ((df.filter (fun r => decide (colStr "month_name" r = k))).map (colNum col)).sum))).find?
            (fun p => decide (p.1 = m)) =
          if m ∈ sortStrAsc ((df.map (colStr "month_name")).dedup) then
            some (m, ((df.filter (fun r => decide (colStr "month_name" r = m))).map (colNum col)).sum)
          else none := by
      intro m
      rw [List.find?_map]
      have hcomp : ((fun p : String × ℚ => decide (p.1 = m)) ∘
          (fun k => (k, ((df.filter (fun r => decide (colStr "month_name" r = k))).map (colNum col)).sum))) =
          fun k => decide (k = m) := rfl
      rw [hcomp, find?_self_eq]
      by_cases hm : m ∈ sortStrAsc ((df.map (colStr "month_name")).dedup)
      · simp [hm]
      · simp [hm]
    calc month_order.filterMap
          (fun m => (((sortStrAsc ((df.map (colStr "month_name")).dedup)).map
            (fun k => (k, ((df.filter (fun r => decide (colStr "month_name" r = k))).map (colNum col)).sum))).find?
              (fun p => decide (p.1 = m))).map (fun p => (m, p.2)))
        = month_order.filterMap (fun m =>
            if m ∈ sortStrAsc ((df.map (colStr "month_name")).dedup) then
              some (m, monthSum df col m) else none) := by
          apply List.filterMap_congr
          intro m _
          rw [hfind m]
          by_cases hm : m ∈ sortStrAsc ((df.map (colStr "month_name")).dedup)
          · simp [hm, groupSum_month_eq]
          · simp [hm]
      _ = (month_order.filter (fun m =>
            decide (m ∈ sortStrAsc ((df.map (colStr "month_name")).dedup)))).map
            (fun m => (m, monthSum df col m)) := filterMap_ite _ _ _
      _ = (month_order.filter (fun m => decide (∃ r ∈ df, r.month_name = m))).map
            (fun m => (m, monthSum df col m)) := by
          congr 1
          exact List.filter_congr (fun m _ => by
            simp only [decide_eq_decide]
            exact hkeys m)
  · have : (((month_order.filter (fun m => decide (∃ r ∈ df, r.month_name = m))).map
        (fun m => (m, monthSum df col m))).map Prod.fst) =
        month_order.filter (fun m => decide (∃ r ∈ df, r.month_name = m)) := by
      rw [List.map_map]
      have hid : (Prod.fst ∘ fun m : String => (m, monthSum df col m)) = id := rfl
      rw [hid, List.map_id]
    rw [this]
    exact List.filter_sublist _
  · intro m
    rw [List.mem_filter]
    constructor
    · rintro ⟨_, hm⟩
      simpa using hm
    · intro hex
      obtain ⟨r, hr, hrm⟩ := hex
      exact ⟨hrm ▸ hmn r hr, by simpa using ⟨r, hr, hrm⟩⟩

/-- Witness for C8: the two-month frame, evaluated concretely. -/
theorem C8_witness :
    time_series_calc [rowJan 150, rowFeb 100] "revenue" "monthly_revenue" =
      Except.ok (.seriesResult "monthly_revenue"
        ((month_order.filter
            (fun m => decide (∃ r ∈ [rowJan 150, rowFeb 100], r.month_name = m))).map
          (fun m => (m, monthSum [rowJan 150, rowFeb 100] "revenue" m)))) :=
  (C8_time_series_canonical [rowJan 150, rowFeb 100] "revenue" "monthly_revenue"
    (by decide) (by decide)).1

end BizMetrics
